import Mathlib

/-
Verification of the HTTP middleware layer of the grpcweb gateway
(src/gateway/gateway.go), shallowly embedded in Lean.

Requests and responses are modelled as association lists of header
key/value pairs (Go header maps, accessed through Header.Get and
Header.Set, with the exact key strings the source uses).  An HTTP
handler is a pure function from a request and the current response
state to the next response state; middleware are handler
transformers, exactly mirroring the Go closures.
-/

namespace GrpcWeb

/-- An HTTP request: method, header map, Host, and the raw request URI
as sent by the client (Go's r.Method, r.Header, r.Host, r.RequestURI). -/
structure Request where
  method : String
  headers : List (String × String)
  host : String
  requestURI : String
deriving DecidableEq, Repr

/-- First value bound to a key in a header list, if any. -/
def headerGet : List (String × String) → String → Option String
  | [], _ => none
  | (k₀, v) :: rest, k => if k₀ = k then some v else headerGet rest k

/-- Go's r.Header.Get(k): the value for k, or the empty string when absent. -/
def Request.get (r : Request) (k : String) : String :=
  (headerGet r.headers k).getD ""

/-- An HTTP response under construction: header map plus the status code
written so far (none before any WriteHeader). -/
structure Response where
  headers : List (String × String)
  status : Option Int
deriving DecidableEq, Repr

/-- Go's Header.Set(k, v): replace the binding for k, or append one. -/
def setHeader : List (String × String) → String → String → List (String × String)
  | [], k, v => [(k, v)]
  | (k₀, v₀) :: rest, k, v =>
      if k₀ = k then (k, v) :: rest else (k₀, v₀) :: setHeader rest k v

/-- w.Header().Get(k) on a response. -/
def Response.get (w : Response) (k : String) : Option String :=
  headerGet w.headers k

/-- w.Header().Set(k, v) on a response. -/
def Response.set (w : Response) (k v : String) : Response :=
  { w with headers := setHeader w.headers k v }

/-- An http.Handler: ServeHTTP(w, r) as a pure response transformer. -/
abbrev Handler := Request → Response → Response

/-- headers is allowed CORS headers (the fixed allow-list from the source). -/
def headers : List String := [
  "Accept",
  "Accept-Encoding",
  "Authorization",
  "Content-Type",
  "Origin",
  "User-Agent",
  "X-CSRF-Token",
  "X-CSRFToken",
  "X-Request-ID",
  "X-Requested-With"
]

/-- methods are the HTTP methods allowed by CORS (http.MethodGet etc.). -/
def methods : List String := ["GET", "HEAD", "POST", "PUT", "PATCH", "DELETE"]

/-- preflightHandler sets header values for CORS and then short-circuits
the request: Access-Control-Allow-Headers and -Methods from the fixed
allow-lists joined with commas, and Access-Control-Max-Age 3600. -/
def preflightHandler (w : Response) (r : Request) : Response :=
  ((w.set "Access-Control-Allow-Headers" (String.intercalate "," headers)).set
      "Access-Control-Allow-Methods" (String.intercalate "," methods)).set
      "Access-Control-Max-Age" "3600"

/-- handleCORS allows Cross Origin Resource Sharing from any origin:
if the Origin header is non-empty it is echoed as
Access-Control-Allow-Origin, and — only inside that branch — an OPTIONS
request with a non-empty Access-Control-Request-Method header is handled
by preflightHandler and returns; every other request falls through to
the wrapped handler. -/
def handleCORS (h : Handler) : Handler := fun r w =>
  if r.get "Origin" ≠ "" then
    if r.method = "OPTIONS" ∧ r.get "Access-Control-Request-Method" ≠ "" then
      preflightHandler (w.set "Access-Control-Allow-Origin" (r.get "Origin")) r
    else
      h r (w.set "Access-Control-Allow-Origin" (r.get "Origin"))
  else
    h r w

/-- loggingResponseWriter records the status code of the response,
decorating an underlying response writer. -/
structure loggingResponseWriter where
  rw : Response
  statusCode : Int
deriving DecidableEq, Repr

/-- NewLoggingResponseWriter wraps a writer with an initial status of
http.StatusOK (200). -/
def NewLoggingResponseWriter (w : Response) : loggingResponseWriter :=
  ⟨w, 200⟩

/-- lrw.WriteHeader(code): record the code, then forward it to the
underlying response writer. -/
def loggingResponseWriter.WriteHeader
    (lrw : loggingResponseWriter) (code : Int) : loggingResponseWriter :=
  { rw := { lrw.rw with status := some code }, statusCode := code }

/-- Model of net/http's http.Redirect for an absolute URL: set the
Location header to the url and write the status code. -/
def Redirect (w : Response) (_r : Request) (url : String) (code : Int) : Response :=
  { w.set "Location" url with status := some code }

/-- redirectHTTP will redirect any requests with a value of http in the
header X-Forwarded-Proto to HTTPS, built from the Host and the unmodified
client-set RequestURI, with http.StatusMovedPermanently (301); any other
value, or no value at all, continues to the wrapped handler. -/
def redirectHTTP (h : Handler) : Handler := fun r w =>
  if r.get "X-Forwarded-Proto" = "http" then
    Redirect w r ("https://" ++ r.host ++ r.requestURI) 301
  else
    h r w

/-- The fixed backend endpoint newGateway registers against. -/
def gatewayEndpoint : String := ":10808"

/-- newGateway returns a new gateway server which translates HTTP into
gRPC: it builds a runtime mux (abstracted as the handler gwMux the
external library produces) and registers the things backend against the
fixed endpoint; a registration error is returned as-is, with no handler
and no retry. register abstracts things.RegisterThingsHandlerFromEndpoint. -/
def newGateway (register : String → Except String Unit) (gwMux : Handler) :
    Except String Handler :=
  match register gatewayEndpoint with
  | .error e => .error e
  | .ok _ => .ok gwMux

/-- Model of http.NewServeMux with the single pattern "/" mounting gw:
every request is routed to gw (path-cleaning details of the Go mux are
outside the scope of the claims). -/
def serveMux (gw : Handler) : Handler := gw

/-- Outcome of Run: either it returned a startup error before the
listener was started, or it started http.ListenAndServe with the given
live handler chain. -/
inductive RunOutcome where
  | startupError (e : String)
  | serving (h : Handler)

/-- Run starts an HTTP server: build the root mux, construct the gateway
(propagating its error, aborting before the listener starts), mount the
gateway at "/", and serve handleCORS(mux). -/
def Run (register : String → Except String Unit) (gwMux : Handler) : RunOutcome :=
  match newGateway register gwMux with
  | .error e => .startupError e
  | .ok gw => .serving (handleCORS (serveMux gw))

/-- An empty response, before any handler has touched it. -/
def emptyResponse : Response := ⟨[], none⟩

/-- A spy handler marking that it was invoked. -/
def spyHandler : Handler := fun _ w => w.set "X-Spy-Called" "yes"

/-- A handler that does nothing. -/
def idHandler : Handler := fun _ w => w

/-- An OPTIONS request carrying Access-Control-Request-Method but no Origin. -/
def rNoOriginPreflight : Request :=
  ⟨"OPTIONS", [("Access-Control-Request-Method", "POST")], "example.com", "/"⟩

/-- A full CORS preflight request: OPTIONS with Origin and
Access-Control-Request-Method. -/
def rPreflight : Request :=
  ⟨"OPTIONS",
   [("Origin", "https://app.example"), ("Access-Control-Request-Method", "POST")],
   "example.com", "/"⟩

/-- A plain GET request with an Origin header. -/
def rGetOrigin : Request :=
  ⟨"GET", [("Origin", "https://app.example")], "example.com", "/things"⟩

/-- A request with no headers at all. -/
def rNoHeaders : Request := ⟨"GET", [], "example.com", "/"⟩

/-- A forwarded plain-HTTP request to example.com/foo?bar=1. -/
def rHTTP : Request :=
  ⟨"GET", [("X-Forwarded-Proto", "http")], "example.com", "/foo?bar=1"⟩

/-- A request whose X-Forwarded-Proto is HTTP in upper case. -/
def rHTTPUpper : Request :=
  ⟨"GET", [("X-Forwarded-Proto", "HTTP")], "example.com", "/"⟩

/-- A registration stub that always succeeds. -/
def okRegister : String → Except String Unit := fun _ => .ok ()

/-- A registration stub that fails with a dial error. -/
def failRegister : String → Except String Unit := fun _ => .error "connection refused"

/-- Looking up the key just set yields the new value. -/
theorem headerGet_setHeader_self (hs : List (String × String)) (k v : String) :
    headerGet (setHeader hs k v) k = some v := by
  induction hs with
  | nil => simp [setHeader, headerGet]
  | cons p rest ih =>
    obtain ⟨k₀, v₀⟩ := p
    by_cases h : k₀ = k
    · simp [setHeader, h, headerGet]
    · simp [setHeader, h, headerGet, ih]

/-- Setting a key leaves every other key unchanged. -/
theorem headerGet_setHeader_ne (hs : List (String × String)) (k k' v : String)
    (hne : k ≠ k') :
    headerGet (setHeader hs k v) k' = headerGet hs k' := by
  induction hs with
  | nil => simp [setHeader, headerGet, hne]
  | cons p rest ih =>
    obtain ⟨k₀, v₀⟩ := p
    by_cases h : k₀ = k
    · simp [setHeader, h, headerGet, hne]
    · simp [setHeader, h, headerGet, ih]

/-- Response.set then Response.get at the same key. -/
theorem Response.get_set_self (w : Response) (k v : String) :
    (w.set k v).get k = some v :=
  headerGet_setHeader_self w.headers k v

/-- Response.set does not disturb other keys. -/
theorem Response.get_set_ne (w : Response) (k k' v : String) (hne : k ≠ k') :
    (w.set k v).get k' = w.get k' :=
  headerGet_setHeader_ne w.headers k k' v hne

/-- On a preflight request with a non-empty Origin, handleCORS reduces to
preflightHandler over the response carrying the echoed origin. -/
theorem handleCORS_preflight_eq (h : Handler) (r : Request) (w : Response)
    (hm : r.method = "OPTIONS") (ho : r.get "Origin" ≠ "")
    (ha : r.get "Access-Control-Request-Method" ≠ "") :
    handleCORS h r w =
      preflightHandler (w.set "Access-Control-Allow-Origin" (r.get "Origin")) r := by
  simp [handleCORS, ho, hm, ha]

/-- Without an Origin header, handleCORS is the wrapped handler. -/
theorem handleCORS_no_origin (h : Handler) (r : Request) (w : Response)
    (ho : r.get "Origin" = "") :
    handleCORS h r w = h r w := by
  simp [handleCORS, ho]

/-- preflightHandler sets Access-Control-Allow-Headers to the joined allow-list. -/
theorem preflightHandler_get_allow_headers (w : Response) (r : Request) :
    (preflightHandler w r).get "Access-Control-Allow-Headers" =
      some (String.intercalate "," headers) := by
  unfold preflightHandler
  rw [Response.get_set_ne _ _ _ _ (by decide), Response.get_set_ne _ _ _ _ (by decide),
    Response.get_set_self]

/-- preflightHandler sets Access-Control-Allow-Methods to the joined allow-list. -/
theorem preflightHandler_get_allow_methods (w : Response) (r : Request) :
    (preflightHandler w r).get "Access-Control-Allow-Methods" =
      some (String.intercalate "," methods) := by
  unfold preflightHandler
  rw [Response.get_set_ne _ _ _ _ (by decide), Response.get_set_self]

/-- preflightHandler sets Access-Control-Max-Age to 3600. -/
theorem preflightHandler_get_max_age (w : Response) (r : Request) :
    (preflightHandler w r).get "Access-Control-Max-Age" = some "3600" := by
  unfold preflightHandler
  rw [Response.get_set_self]

/-- The comma-join of the fixed header allow-list. -/
theorem headers_joined :
    String.intercalate "," headers =
      "Accept,Accept-Encoding,Authorization,Content-Type,Origin,User-Agent,X-CSRF-Token,X-CSRFToken,X-Request-ID,X-Requested-With" := by
  decide

/-- The comma-join of the fixed method allow-list. -/
theorem methods_joined :
    String.intercalate "," methods = "GET,HEAD,POST,PUT,PATCH,DELETE" := by
  decide

/-- C1 counterexample: an OPTIONS request carrying a non-empty
Access-Control-Request-Method header but no Origin header is NOT treated
as a preflight by handleCORS — none of the preflight CORS headers is
written and the wrapped handler IS invoked, refuting the claim's
"regardless of any other header on the request". -/
theorem handleCORS_preflight_without_origin_cex :
    (handleCORS spyHandler rNoOriginPreflight emptyResponse).get "Access-Control-Allow-Headers" = none ∧
    (handleCORS spyHandler rNoOriginPreflight emptyResponse).get "Access-Control-Allow-Methods" = none ∧
    (handleCORS spyHandler rNoOriginPreflight emptyResponse).get "Access-Control-Max-Age" = none ∧
    handleCORS spyHandler rNoOriginPreflight emptyResponse =
      spyHandler rNoOriginPreflight emptyResponse := by
  decide

/-- C1 (amended): for every request whose method is OPTIONS and that
carries a non-empty Access-Control-Request-Method header AND a non-empty
Origin header, handleCORS writes Access-Control-Allow-Headers,
Access-Control-Allow-Methods and Access-Control-Max-Age: 3600 and
returns without invoking the wrapped handler (the result is the same for
every wrapped handler). -/
theorem handleCORS_preflight_origin_required (h : Handler) (r : Request) (w : Response)
    (hm : r.method = "OPTIONS")
    (ha : r.get "Access-Control-Request-Method" ≠ "")
    (ho : r.get "Origin" ≠ "") :
    (handleCORS h r w).get "Access-Control-Allow-Headers" =
      some (String.intercalate "," headers) ∧
    (handleCORS h r w).get "Access-Control-Allow-Methods" =
      some (String.intercalate "," methods) ∧
    (handleCORS h r w).get "Access-Control-Max-Age" = some "3600" ∧
    ∀ h' : Handler, handleCORS h r w = handleCORS h' r w := by
  rw [handleCORS_preflight_eq h r w hm ho ha]
  exact ⟨preflightHandler_get_allow_headers _ _, preflightHandler_get_allow_methods _ _,
    preflightHandler_get_max_age _ _, fun h' => (handleCORS_preflight_eq h' r w hm ho ha).symm⟩

/-- Witness for C1 (amended) at a concrete full preflight request. -/
theorem handleCORS_preflight_origin_required_witness :
    (handleCORS spyHandler rPreflight emptyResponse).get "Access-Control-Max-Age" =
      some "3600" :=
  (handleCORS_preflight_origin_required spyHandler rPreflight emptyResponse rfl
    (by decide) (by decide)).2.2.1

/-- C2: for every OPTIONS request with both a non-empty Origin and a
non-empty Access-Control-Request-Method header, the response carries the
complete fixed allow-lists, comma-joined exactly as stated, plus
Access-Control-Max-Age: 3600, and the wrapped handler is invoked zero
times (the result does not depend on the wrapped handler). -/
theorem handleCORS_preflight_allow_lists (h : Handler) (r : Request) (w : Response)
    (hm : r.method = "OPTIONS")
    (ho : r.get "Origin" ≠ "")
    (ha : r.get "Access-Control-Request-Method" ≠ "") :
    (handleCORS h r w).get "Access-Control-Allow-Headers" =
      some "Accept,Accept-Encoding,Authorization,Content-Type,Origin,User-Agent,X-CSRF-Token,X-CSRFToken,X-Request-ID,X-Requested-With" ∧
    (handleCORS h r w).get "Access-Control-Allow-Methods" =
      some "GET,HEAD,POST,PUT,PATCH,DELETE" ∧
    (handleCORS h r w).get "Access-Control-Max-Age" = some "3600" ∧
    ∀ h' : Handler, handleCORS h r w = handleCORS h' r w := by
  rw [handleCORS_preflight_eq h r w hm ho ha]
  refine ⟨?_, ?_, preflightHandler_get_max_age _ _,
    fun h' => (handleCORS_preflight_eq h' r w hm ho ha).symm⟩
  · rw [preflightHandler_get_allow_headers, headers_joined]
  · rw [preflightHandler_get_allow_methods, methods_joined]

/-- Witness for C2 at a concrete full preflight request, including the
handler-independence conjunct instantiated with two distinct handlers. -/
theorem handleCORS_preflight_allow_lists_witness :
    (handleCORS idHandler rPreflight emptyResponse).get "Access-Control-Allow-Headers" =
      some "Accept,Accept-Encoding,Authorization,Content-Type,Origin,User-Agent,X-CSRF-Token,X-CSRFToken,X-Request-ID,X-Requested-With" ∧
    (handleCORS idHandler rPreflight emptyResponse).get "Access-Control-Allow-Methods" =
      some "GET,HEAD,POST,PUT,PATCH,DELETE" ∧
    (handleCORS idHandler rPreflight emptyResponse).get "Access-Control-Max-Age" =
      some "3600" ∧
    handleCORS idHandler rPreflight emptyResponse =
      handleCORS spyHandler rPreflight emptyResponse := by
  obtain ⟨h1, h2, h3, h4⟩ := handleCORS_preflight_allow_lists idHandler rPreflight
    emptyResponse rfl (by decide) (by decide)
  exact ⟨h1, h2, h3, h4 spyHandler⟩

/-- C3: for every request with a non-empty Origin header X, the response
of the CORS middleware carries Access-Control-Allow-Origin: X verbatim,
for preflight and non-preflight requests alike (assuming the wrapped
handler does not itself alter that header). -/
theorem handleCORS_echoes_origin (h : Handler) (r : Request) (w : Response) (X : String)
    (hX : r.get "Origin" = X) (hne : X ≠ "")
    (hpres : ∀ r₀ w₀, (h r₀ w₀).get "Access-Control-Allow-Origin" =
      w₀.get "Access-Control-Allow-Origin") :
    (handleCORS h r w).get "Access-Control-Allow-Origin" = some X := by
  unfold handleCORS
  rw [hX, if_pos hne]
  by_cases hpre : r.method = "OPTIONS" ∧ r.get "Access-Control-Request-Method" ≠ ""
  · rw [if_pos hpre]
    unfold preflightHandler
    rw [Response.get_set_ne _ _ _ _ (by decide), Response.get_set_ne _ _ _ _ (by decide),
      Response.get_set_ne _ _ _ _ (by decide), Response.get_set_self]
  · rw [if_neg hpre, hpres, Response.get_set_self]

/-- Witness for C3: a concrete GET request with an Origin header, under a
wrapped handler that leaves the Access-Control-Allow-Origin header alone. -/
theorem handleCORS_echoes_origin_witness :
    (handleCORS idHandler rGetOrigin emptyResponse).get "Access-Control-Allow-Origin" =
      some "https://app.example" :=
  handleCORS_echoes_origin idHandler rGetOrigin emptyResponse "https://app.example"
    (by decide) (by decide) (fun _ _ => rfl)

/-- C4: for every request with no (or an empty) Origin header, handleCORS
adds no CORS headers and invokes the wrapped handler exactly once with the
request and response state unchanged. -/
theorem handleCORS_no_origin_passthrough (h : Handler) (r : Request) (w : Response)
    (ho : r.get "Origin" = "") :
    handleCORS h r w = h r w :=
  handleCORS_no_origin h r w ho

/-- Witness for C4 at a request with no headers. -/
theorem handleCORS_no_origin_passthrough_witness :
    handleCORS spyHandler rNoHeaders emptyResponse =
      spyHandler rNoHeaders emptyResponse :=
  handleCORS_no_origin_passthrough spyHandler rNoHeaders emptyResponse (by decide)

/-- C10: an OPTIONS request with a non-empty Access-Control-Request-Method
header but an empty Origin header is not treated as a preflight: handleCORS
writes no CORS headers and invokes the wrapped handler exactly once
unchanged, because the preflight check is nested inside the non-empty
Origin branch. -/
theorem handleCORS_options_without_origin_passthrough
    (h : Handler) (r : Request) (w : Response)
    (hm : r.method = "OPTIONS")
    (ha : r.get "Access-Control-Request-Method" ≠ "")
    (ho : r.get "Origin" = "") :
    handleCORS h r w = h r w :=
  handleCORS_no_origin h r w ho

/-- Witness for C10 at the concrete no-Origin preflight-shaped request. -/
theorem handleCORS_options_without_origin_passthrough_witness :
    handleCORS idHandler rNoOriginPreflight emptyResponse =
      idHandler rNoOriginPreflight emptyResponse :=
  handleCORS_options_without_origin_passthrough idHandler rNoOriginPreflight
    emptyResponse rfl (by decide) (by decide)

/-- C5: for every request whose X-Forwarded-Proto header equals exactly
"http", redirectHTTP responds with status 301 and a Location of "https://"
concatenated with the original Host and the client-supplied RequestURI
verbatim, without invoking the wrapped handler (the result does not depend
on the wrapped handler). -/
theorem redirectHTTP_redirects_http (h : Handler) (r : Request) (w : Response)
    (hx : r.get "X-Forwarded-Proto" = "http") :
    (redirectHTTP h r w).status = some 301 ∧
    (redirectHTTP h r w).get "Location" =
      some ("https://" ++ r.host ++ r.requestURI) ∧
    ∀ h' : Handler, redirectHTTP h r w = redirectHTTP h' r w := by
  refine ⟨?_, ?_, fun h' => ?_⟩
  · simp [redirectHTTP, hx, Redirect]
  · simp only [redirectHTTP, hx, if_pos]
    unfold Redirect
    exact Response.get_set_self _ _ _
  · simp [redirectHTTP, hx]

/-- Witness for C5: Host example.com with path /foo?bar=1 yields exactly
the Location https://example.com/foo?bar=1 and status 301. -/
theorem redirectHTTP_redirects_http_witness :
    (redirectHTTP spyHandler rHTTP emptyResponse).status = some 301 ∧
    (redirectHTTP spyHandler rHTTP emptyResponse).get "Location" =
      some "https://example.com/foo?bar=1" := by
  obtain ⟨h1, h2, _⟩ := redirectHTTP_redirects_http spyHandler rHTTP emptyResponse rfl
  exact ⟨h1, h2.trans (by decide)⟩

/-- C6: for every request whose X-Forwarded-Proto header is absent or has
any value other than exactly "http" (the comparison is case-sensitive),
redirectHTTP invokes the wrapped handler exactly once with the request and
response unchanged and writes no redirect. -/
theorem redirectHTTP_passthrough (h : Handler) (r : Request) (w : Response)
    (hx : r.get "X-Forwarded-Proto" ≠ "http") :
    redirectHTTP h r w = h r w := by
  simp [redirectHTTP, hx]

/-- Witness for C6 at a request carrying X-Forwarded-Proto: HTTP in upper
case, which must not trigger the redirect. -/
theorem redirectHTTP_passthrough_witness :
    redirectHTTP spyHandler rHTTPUpper emptyResponse =
      spyHandler rHTTPUpper emptyResponse :=
  redirectHTTP_passthrough spyHandler rHTTPUpper emptyResponse (by decide)

/-- Folding WriteHeader over a list of codes leaves the last code, or the
initial one when the list is empty. -/
theorem foldl_WriteHeader_statusCode (codes : List Int) (lrw : loggingResponseWriter) :
    (codes.foldl loggingResponseWriter.WriteHeader lrw).statusCode =
      codes.getLast?.getD lrw.statusCode := by
  induction codes generalizing lrw with
  | nil => rfl
  | cons c cs ih =>
    rw [List.foldl_cons, ih]
    cases cs with
    | nil => rfl
    | cons d ds => rw [List.getLast?_cons_cons]; rfl

/-- C7: the status-capturing response writer starts at 200 and, after any
sequence of WriteHeader calls by the wrapped handler, its recorded
statusCode is the last code passed to WriteHeader, or 200 when WriteHeader
was never called. -/
theorem loggingResponseWriter_records_last_status (w : Response) (codes : List Int) :
    (NewLoggingResponseWriter w).statusCode = 200 ∧
    (codes.foldl loggingResponseWriter.WriteHeader
        (NewLoggingResponseWriter w)).statusCode = codes.getLast?.getD 200 :=
  ⟨rfl, foldl_WriteHeader_statusCode codes (NewLoggingResponseWriter w)⟩

/-- C8: newGateway returns an error exactly when registration against the
fixed endpoint ":10808" fails (and then no handler is produced); Run
propagates that error and aborts before the listener is started; when the
single registration attempt succeeds, the gateway handler is returned. -/
theorem newGateway_registration_error_propagates
    (register : String → Except String Unit) (gwMux : Handler) (e : String) :
    (register gatewayEndpoint = .error e →
      newGateway register gwMux = .error e ∧
        Run register gwMux = .startupError e) ∧
    (register gatewayEndpoint = .ok () → newGateway register gwMux = .ok gwMux) ∧
    (newGateway register gwMux = .error e → register gatewayEndpoint = .error e) := by
  refine ⟨fun h => ?_, fun h => ?_, fun h => ?_⟩
  · exact ⟨by simp [newGateway, h], by simp [Run, newGateway, h]⟩
  · simp [newGateway, h]
  · cases hreg : register gatewayEndpoint with
    | error e₀ =>
      simp only [newGateway, hreg, Except.error.injEq] at h
      rw [h]
    | ok u =>
      simp [newGateway, hreg] at h

/-- Witness for C8: a failing registration stub makes newGateway return
its error and Run abort with the same error before serving. -/
theorem newGateway_registration_error_propagates_witness :
    newGateway failRegister idHandler = .error "connection refused" ∧
    Run failRegister idHandler = .startupError "connection refused" :=
  (newGateway_registration_error_propagates failRegister idHandler
    "connection refused").1 rfl

/-- C9: when registration succeeds, the handler chain Run serves is exactly
handleCORS applied to the root mux, with redirectHTTP not composed: a
request carrying X-Forwarded-Proto: http (and no Origin) is passed straight
through to the mux by the live chain, not redirected at this layer. -/
theorem run_serves_handleCORS_mux_only
    (register : String → Except String Unit) (gwMux : Handler)
    (r : Request) (w : Response)
    (hreg : register gatewayEndpoint = .ok ())
    (hx : r.get "X-Forwarded-Proto" = "http")
    (ho : r.get "Origin" = "") :
    Run register gwMux = .serving (handleCORS (serveMux gwMux)) ∧
    handleCORS (serveMux gwMux) r w = serveMux gwMux r w := by
  constructor
  · simp [Run, newGateway, hreg]
  · exact handleCORS_no_origin _ r w ho

/-- Witness for C9: with a succeeding registration stub and the spy mux,
the live chain is handleCORS over the mux and a forwarded plain-HTTP
request is served by the mux, not redirected. -/
theorem run_serves_handleCORS_mux_only_witness :
    Run okRegister spyHandler = .serving (handleCORS (serveMux spyHandler)) ∧
    handleCORS (serveMux spyHandler) rHTTP emptyResponse =
      serveMux spyHandler rHTTP emptyResponse :=
  run_serves_handleCORS_mux_only okRegister spyHandler rHTTP emptyResponse rfl
    (by decide) (by decide)

end GrpcWeb
